/-
Verification of the audio_capture_library capture-session runtime.

This file shallowly embeds the parts of the library that the checked
properties talk about:
  * `AudioFormat` and its derived quantities   (windows/API/AudioFormat.py)
  * the bounded FIFO buffer queue               (windows/API/AudioBufferQueue.py)
  * the circular (ring) buffer queue            (windows/API/AudioBufferQueue.py)
  * the capture-session state machine and stop  (windows/API/AudioSession.py)
  * the TCP broadcast wire format and client    (windows/API/NetworkOutput.py)
  * the WAV writer sink error handling          (windows/API/WavFileWriter.py)
  * the two-source mixer                        (Examples/interactive_recording_mixer.py)

Machine integers are modelled as Nat/Int with explicit reductions where the
source wraps; Python floats that only flow through bookkeeping are modelled
as rationals; fallible operations return `Except`/`Option`.
-/
import Mathlib

namespace AudioCapture

/-! ## AudioFormat (windows/API/AudioFormat.py)

`AudioFormat` is a frozen dataclass; `__post_init__` coerces `is_float` to
`True` when `bit_depth == 32` and `is_float` is `False` ("Default to float
for 32-bit").  `sample_rate` is a Python float that is only ever truncated
with `int(...)`, so we model it as a rational. -/

structure AudioFormat where
  sample_rate : ℚ
  channel_count : Nat
  bit_depth : Nat
  is_interleaved : Bool
  is_float : Bool
deriving DecidableEq, Repr

/-- Constructor of `AudioFormat`, including `__post_init__`: if
`bit_depth == 32 and not is_float`, the field `is_float` is overwritten
with `True`. -/
def mkAudioFormat (sample_rate : ℚ) (channel_count bit_depth : Nat)
    (is_interleaved : Bool) (is_float : Bool := false) : AudioFormat :=
  let f : AudioFormat :=
    { sample_rate := sample_rate, channel_count := channel_count,
      bit_depth := bit_depth, is_interleaved := is_interleaved,
      is_float := is_float }
  if f.bit_depth = 32 ∧ f.is_float = false then
    { f with is_float := true }
  else
    f

/-- `AudioFormat.bytes_per_frame`:
`(self.bit_depth // 8) * (self.channel_count if self.is_interleaved else 1)`. -/
def AudioFormat.bytes_per_frame (f : AudioFormat) : Nat :=
  (f.bit_depth / 8) * (if f.is_interleaved then f.channel_count else 1)

/-- `AudioFormat.bytes_per_packet`:
`self.bytes_per_frame * (1 if self.is_interleaved else self.channel_count)`. -/
def AudioFormat.bytes_per_packet (f : AudioFormat) : Nat :=
  f.bytes_per_frame * (if f.is_interleaved then 1 else f.channel_count)

end AudioCapture

namespace AudioCapture

/-! ### C5: bytes_per_frame -/

/-- C5 counterexample: for the non-interleaved stereo 16-bit format the code
computes `bytes_per_frame = 16//8 * 1 = 2`, not `(bit_depth/8) × channel_count
= 4` as the claim states for every format. -/
theorem c5_bytes_per_frame_counterexample :
    (mkAudioFormat 48000 2 16 false false).bytes_per_frame = 2 ∧
    ¬ (mkAudioFormat 48000 2 16 false false).bytes_per_frame =
        (16 / 8) * 2 := by
  constructor
  · rfl
  · decide

/-- C5 (amended): `bytes_per_frame` equals `(bit_depth/8) × channel_count`
only for interleaved formats; for non-interleaved formats it is the
per-channel value `bit_depth/8` (the full per-frame figure being
`bytes_per_packet`). -/
theorem c5_bytes_per_frame_amended (f : AudioFormat) :
    (f.is_interleaved = true →
      f.bytes_per_frame = (f.bit_depth / 8) * f.channel_count) ∧
    (f.is_interleaved = false →
      f.bytes_per_frame = f.bit_depth / 8) ∧
    f.bytes_per_packet = (f.bit_depth / 8) * f.channel_count := by
  refine ⟨?_, ?_, ?_⟩ <;>
    (first
      | (intro h; simp [AudioFormat.bytes_per_frame, h])
      | (cases hI : f.is_interleaved <;>
          simp [AudioFormat.bytes_per_packet, AudioFormat.bytes_per_frame, hI,
            Nat.mul_comm]))

/-- C5 amended witness at the concrete non-interleaved stereo 16-bit format. -/
theorem c5_bytes_per_frame_amended_witness :
    (mkAudioFormat 48000 2 16 false false).is_interleaved = false ∧
    (mkAudioFormat 48000 2 16 false false).bytes_per_frame = 16 / 8 := by
  exact ⟨by decide,
    (c5_bytes_per_frame_amended (mkAudioFormat 48000 2 16 false false)).2.1
      (by decide)⟩

/-! ### C6: 32-bit integer PCM construction -/

/-- C6 counterexample: constructing an `AudioFormat` with `bit_depth = 32`
and `is_float = False` does not preserve `is_float`: `__post_init__`
overwrites it with `True`, so the result is not a 32-bit integer format. -/
theorem c6_int32_counterexample :
    (mkAudioFormat 48000 2 32 true false).is_float = true := by
  decide

/-- C6 (amended): constructing an `AudioFormat` with `bit_depth = 32` and
`is_float = false` yields a format whose `bit_depth` is still 32 but whose
`is_float` has been coerced to `true` by `__post_init__` (32-bit defaults to
float); every other field is preserved. -/
theorem c6_int32_amended (sr : ℚ) (ch : Nat) (il : Bool) :
    (mkAudioFormat sr ch 32 il false).bit_depth = 32 ∧
    (mkAudioFormat sr ch 32 il false).is_float = true ∧
    (mkAudioFormat sr ch 32 il false).sample_rate = sr ∧
    (mkAudioFormat sr ch 32 il false).channel_count = ch ∧
    (mkAudioFormat sr ch 32 il false).is_interleaved = il := by
  refine ⟨rfl, rfl, rfl, rfl, rfl⟩

end AudioCapture

namespace AudioCapture

/-! ## AudioBufferQueue (windows/API/AudioBufferQueue.py, class AudioBufferQueue)

The sync side is a `deque` guarded by a mutex; a parallel
`asyncio.Queue(maxsize=max_size)` mirrors enqueues for async consumers.
`enqueue` first updates the deque (dropping the oldest element and
incrementing `dropped_buffers` when `len >= max_size`) and then calls
`put_nowait` on the async queue, incrementing the same `dropped_buffers`
counter when that queue is full.  `dequeue` only pops the deque.
The element type is abstracted to `Nat` (the claims enqueue integers). -/

structure QueueStatistics where
  current_size : Nat
  peak_size : Nat
  total_enqueued : Nat
  total_dequeued : Nat
  dropped_buffers : Nat
  error_count : Nat
deriving DecidableEq, Repr

structure BufferQueue where
  max_size : Nat
  buffers : List Nat
  asyncQueue : List Nat
  stats : QueueStatistics
  is_finished : Bool
deriving DecidableEq, Repr

/-- `AudioBufferQueue.__init__(max_size)`. -/
def BufferQueue.init (max_size : Nat) : BufferQueue :=
  { max_size := max_size, buffers := [], asyncQueue := [],
    stats := ⟨0, 0, 0, 0, 0, 0⟩, is_finished := false }

/-- `AudioBufferQueue.enqueue`.  Mirrors the source statement by
statement: the guarded early return on `_is_finished`; `total_enqueued`
increment; on `len(self._buffers) >= self.max_size` increment
`dropped_buffers` and `popleft` (guarded by `if self._buffers`, which
`List.tail` subsumes); append; `current_size`/`peak_size` bookkeeping;
finally `put_nowait` on the async queue, which raises `QueueFull` when the
async queue holds at least `max_size` items (asyncio treats `maxsize <= 0`
as unbounded), in which case `dropped_buffers` is incremented again. -/
def BufferQueue.enqueue (q : BufferQueue) (x : Nat) : BufferQueue :=
  if q.is_finished then q
  else
    let te := q.stats.total_enqueued + 1
    let (drop1, bufs1) :=
      if q.buffers.length ≥ q.max_size then
        (q.stats.dropped_buffers + 1, q.buffers.tail)
      else
        (q.stats.dropped_buffers, q.buffers)
    let bufs2 := bufs1 ++ [x]
    let cs := bufs2.length
    let pk := max q.stats.peak_size cs
    let asyncFull := 0 < q.max_size ∧ q.asyncQueue.length ≥ q.max_size
    let (drop2, aq2) :=
      if asyncFull then (drop1 + 1, q.asyncQueue)
      else (drop1, q.asyncQueue ++ [x])
    { q with
      buffers := bufs2,
      asyncQueue := aq2,
      stats := { q.stats with
                 total_enqueued := te,
                 dropped_buffers := drop2,
                 current_size := cs,
                 peak_size := pk } }

/-- `AudioBufferQueue.dequeue` (the sync deque pop; the async queue is not
touched). -/
def BufferQueue.dequeue (q : BufferQueue) : Option Nat × BufferQueue :=
  match q.buffers with
  | [] => (none, q)
  | b :: rest =>
      (some b,
        { q with
          buffers := rest,
          stats := { q.stats with
                     total_dequeued := q.stats.total_dequeued + 1,
                     current_size := rest.length } })

/-- Repeatedly `dequeue` until the queue reports empty (at most `fuel`
pops), collecting the returned buffers in order. -/
def BufferQueue.dequeueAll : Nat → BufferQueue → List Nat × BufferQueue
  | 0, q => ([], q)
  | fuel + 1, q =>
      match q.dequeue with
      | (none, q') => ([], q')
      | (some b, q') =>
          let (rest, q'') := BufferQueue.dequeueAll fuel q'
          (b :: rest, q'')

/-- `AudioBufferQueue.count`. -/
def BufferQueue.count (q : BufferQueue) : Nat := q.buffers.length

/-- The state after enqueueing 1..10 into a fresh queue of capacity 4 with
no intervening dequeues (scenario S3). -/
def s3Queue : BufferQueue :=
  (List.range' 1 10).foldl BufferQueue.enqueue (BufferQueue.init 4)

/-! ### C1: drop-oldest overflow and the dropped_buffers statistic -/

/-- C1: enqueueing 1..10 into a capacity-4 `AudioBufferQueue` retains the
suffix `[7,8,9,10]` with `count = 4 = min(10,4)` and dequeuing yields
`[7,8,9,10]`, but `dropped_buffers` ends at 12, not `max(0, 10-4) = 6`:
each overflowing enqueue is counted twice, once for the sync deque drop and
once for the full async notification queue (making the code's own
documented `drop_rate` range `0.0..1.0` impossible: `12/10 > 1`). -/
theorem c1_drop_oldest_double_count :
    s3Queue.buffers = [7, 8, 9, 10] ∧
    s3Queue.count = 4 ∧
    (s3Queue.dequeueAll 10).1 = [7, 8, 9, 10] ∧
    s3Queue.stats.dropped_buffers = 12 ∧
    s3Queue.stats.total_enqueued = 10 ∧
    ¬ s3Queue.stats.dropped_buffers = 6 := by
  refine ⟨?_, ?_, ?_, ?_, ?_, ?_⟩ <;> decide

end AudioCapture

namespace AudioCapture

/-! ## CircularAudioBufferQueue (windows/API/AudioBufferQueue.py)

A fixed array of `capacity` slots with `head`/`tail` indices; `try_enqueue`
refuses (returns `False`) when advancing `tail` would collide with `head`,
so the structure stores at most `capacity - 1` items. -/

structure CircularQueue where
  capacity : Nat
  head : Nat
  tail : Nat
  buffers : List (Option Nat)
deriving DecidableEq, Repr

/-- `CircularAudioBufferQueue.__init__(capacity)`. -/
def CircularQueue.init (capacity : Nat) : CircularQueue :=
  { capacity := capacity, head := 0, tail := 0,
    buffers := List.replicate capacity none }

/-- `CircularAudioBufferQueue.try_enqueue`: compute
`next_tail = (tail + 1) % capacity`; fail if it equals `head`, else store at
`tail` and advance. -/
def CircularQueue.try_enqueue (q : CircularQueue) (x : Nat) :
    Bool × CircularQueue :=
  let next_tail := (q.tail + 1) % q.capacity
  if next_tail = q.head then
    (false, q)
  else
    (true, { q with buffers := q.buffers.set q.tail (some x), tail := next_tail })

/-- `CircularAudioBufferQueue.try_dequeue`: empty iff `head == tail`;
otherwise return the slot at `head`, clear it and advance `head`. -/
def CircularQueue.try_dequeue (q : CircularQueue) : Option Nat × CircularQueue :=
  if q.head = q.tail then
    (none, q)
  else
    ((q.buffers.get? q.head).join,
      { q with buffers := q.buffers.set q.head none,
               head := (q.head + 1) % q.capacity })

/-- `CircularAudioBufferQueue.count`. -/
def CircularQueue.count (q : CircularQueue) : Nat :=
  if q.head ≤ q.tail then q.tail - q.head else q.capacity - q.head + q.tail

/-- `CircularAudioBufferQueue.is_full`. -/
def CircularQueue.is_full (q : CircularQueue) : Bool :=
  (q.tail + 1) % q.capacity = q.head

/-- `CircularAudioBufferQueue.clear`. -/
def CircularQueue.clear (q : CircularQueue) : CircularQueue :=
  { q with head := 0, tail := 0, buffers := List.replicate q.capacity none }

/-- The indices stay inside the slot array; established by `__init__` and
preserved by every operation (the `%` keeps them below `capacity`). -/
def CircularQueue.WF (q : CircularQueue) : Prop :=
  1 ≤ q.capacity ∧ q.head < q.capacity ∧ q.tail < q.capacity

lemma mod_succ_char {t c : Nat} (h : t < c) :
    (t + 1) % c = if t + 1 = c then 0 else t + 1 := by
  rcases Nat.lt_or_ge (t + 1) c with h1 | h1
  · rw [Nat.mod_eq_of_lt h1, if_neg (by omega)]
  · have : t + 1 = c := by omega
    rw [this, Nat.mod_self, if_pos rfl]

end AudioCapture

namespace AudioCapture

/-! ### C10: the circular queue holds at most capacity - 1 items -/

/-- C10: for every well-formed circular queue of capacity `k ≥ 1` (the
constructor establishes well-formedness and every operation preserves it),
the stored count never exceeds `k - 1`; `try_enqueue` returns `False`
exactly when `count = k - 1`, leaving the queue unchanged; a successful
`try_enqueue` increments `count` by one; and `is_full` holds exactly when
`count = k - 1`. -/
theorem c10_circular_capacity (q : CircularQueue) (x : Nat) (h : q.WF) :
    q.count ≤ q.capacity - 1 ∧
    ((q.try_enqueue x).1 = false ↔ q.count = q.capacity - 1) ∧
    ((q.try_enqueue x).1 = false → (q.try_enqueue x).2 = q) ∧
    ((q.try_enqueue x).1 = true → (q.try_enqueue x).2.count = q.count + 1) ∧
    (q.is_full = true ↔ q.count = q.capacity - 1) ∧
    (∀ k, 1 ≤ k → (CircularQueue.init k).WF) ∧
    (q.try_enqueue x).2.WF ∧ q.try_dequeue.2.WF ∧ q.clear.WF := by
  obtain ⟨hc, hh, ht⟩ := h
  have hmod := mod_succ_char (t := q.tail) (c := q.capacity) ht
  have hfullIff : ((q.tail + 1) % q.capacity = q.head) ↔
      q.count = q.capacity - 1 := by
    rw [hmod]
    unfold CircularQueue.count
    by_cases he : q.tail + 1 = q.capacity
    · rw [if_pos he]
      by_cases hle : q.head ≤ q.tail
      · rw [if_pos hle]; omega
      · rw [if_neg hle]; omega
    · rw [if_neg he]
      by_cases hle : q.head ≤ q.tail
      · rw [if_pos hle]; omega
      · rw [if_neg hle]; omega
  refine ⟨?_, ?_, ?_, ?_, ?_, ?_, ?_, ?_, ?_⟩
  · unfold CircularQueue.count
    by_cases hle : q.head ≤ q.tail
    · rw [if_pos hle]; omega
    · rw [if_neg hle]; omega
  · unfold CircularQueue.try_enqueue
    by_cases hfull : (q.tail + 1) % q.capacity = q.head
    · simpa [hfull] using hfullIff.mp hfull
    · simp only [hfull, if_neg hfull]
      simpa using fun hcount => hfull (hfullIff.mpr hcount)
  · unfold CircularQueue.try_enqueue
    by_cases hfull : (q.tail + 1) % q.capacity = q.head
    · simp [hfull]
    · simp [hfull]
  · unfold CircularQueue.try_enqueue
    by_cases hfull : (q.tail + 1) % q.capacity = q.head
    · simp [hfull]
    · simp only [if_neg hfull, CircularQueue.count]
      intro
      rw [hmod] at hfull ⊢
      by_cases he : q.tail + 1 = q.capacity
      · rw [if_pos he] at hfull ⊢
        have hh0 : ¬ q.head ≤ 0 := by
          intro h0
          exact hfull (by omega)
        rw [if_neg hh0]
        by_cases hle : q.head ≤ q.tail
        · rw [if_pos hle]; omega
        · rw [if_neg hle]; omega
      · rw [if_neg he] at hfull ⊢
        by_cases hle : q.head ≤ q.tail
        · rw [if_pos (by omega : q.head ≤ q.tail + 1), if_pos hle]; omega
        · have hle' : ¬ q.head ≤ q.tail + 1 := by omega
          rw [if_neg hle', if_neg hle]; omega
  · unfold CircularQueue.is_full
    constructor
    · intro hb
      exact hfullIff.mp (by simpa using hb)
    · intro hcount
      simpa using hfullIff.mpr hcount
  · intro k hk
    exact ⟨hk, by simpa using hk, by simpa using hk⟩
  · unfold CircularQueue.try_enqueue
    by_cases hfull : (q.tail + 1) % q.capacity = q.head
    · simpa [hfull] using ⟨hc, hh, ht⟩
    · simp only [if_neg hfull]
      exact ⟨hc, hh, Nat.mod_lt _ (by omega)⟩
  · unfold CircularQueue.try_dequeue
    by_cases hemp : q.head = q.tail
    · simpa [hemp] using ⟨hc, hh, ht⟩
    · simp only [if_neg hemp]
      exact ⟨hc, Nat.mod_lt _ (by omega), ht⟩
  · refine ⟨hc, ?_, ?_⟩ <;> simp [CircularQueue.clear] <;> omega

/-- C10 witness: the queue of declared capacity 2 accepts exactly one item;
after one successful enqueue `count = 1 = capacity - 1` and the next
`try_enqueue` fails. -/
theorem c10_circular_capacity_witness :
    (CircularQueue.init 2).WF ∧
    ((CircularQueue.init 2).try_enqueue 7).1 = true ∧
    (((CircularQueue.init 2).try_enqueue 7).2.try_enqueue 8).1 = false ∧
    ((CircularQueue.init 2).try_enqueue 7).2.count = 2 - 1 := by
  have h0 : (CircularQueue.init 2).WF := ⟨by decide, by decide, by decide⟩
  have h1 := c10_circular_capacity (CircularQueue.init 2) 7 h0
  have h2 := c10_circular_capacity ((CircularQueue.init 2).try_enqueue 7).2 8
    h1.2.2.2.2.2.2.1
  refine ⟨h0, by decide, ?_, ?_⟩
  · exact h2.2.1.mpr (by decide)
  · decide

end AudioCapture

namespace AudioCapture

/-! ## AudioCaptureSession (windows/API/AudioSession.py)

The session keeps `_state`, its own `_outputs` list, and a multiplexer with
its own `_outputs` list; `add_output` appends to both, `remove_output`
removes from both.  Every guard raises `InvalidStateError` *before* any
state update, so a refused call leaves the state unchanged.  Sinks are
abstracted to identifiers (`Nat`). -/

inductive SessionState
  | idle | starting | active | paused | stopping | stopped | error
deriving DecidableEq, Repr

inductive SessionErr
  | invalidState
  | startFailure
deriving DecidableEq, Repr

/-- Side effects a lifecycle call performs on a sink, in order. -/
inductive SinkAction
  | configure
  | register
deriving DecidableEq, Repr

/-- Outcome of a lifecycle call: the state afterwards and the exception it
raised, if any (`none` = returned normally). -/
structure OpOutcome where
  finalState : SessionState
  err : Option SessionErr
deriving DecidableEq, Repr

/-- `AudioCaptureSession.start`.  Guard: `_state in (IDLE, STOPPED)` else
`InvalidStateError`.  Then `update_state(STARTING)`; recorder creation and
`start_streaming` may fail (modelled by `producerOk`): on failure
`handle_error` moves the state to `ERROR` and the exception is re-raised;
on success the state becomes `ACTIVE`. -/
def startOp (producerOk : Bool) (s : SessionState) : OpOutcome :=
  if s = .idle ∨ s = .stopped then
    if producerOk then ⟨.active, none⟩ else ⟨.error, some .startFailure⟩
  else ⟨s, some .invalidState⟩

/-- `AudioCaptureSession.pause`: only from `ACTIVE`. -/
def pauseOp (s : SessionState) : OpOutcome :=
  if s = .active then ⟨.paused, none⟩ else ⟨s, some .invalidState⟩

/-- `AudioCaptureSession.resume`: only from `PAUSED`. -/
def resumeOp (s : SessionState) : OpOutcome :=
  if s = .paused then ⟨.active, none⟩ else ⟨s, some .invalidState⟩

/-- `AudioCaptureSession.stop` seen only as a state transition: guard on
`ACTIVE`/`PAUSED`, then `STOPPING` and finally `STOPPED` (the sink
notifications are modelled separately below). -/
def stopOp (s : SessionState) : OpOutcome :=
  if s = .active ∨ s = .paused then ⟨.stopped, none⟩ else ⟨s, some .invalidState⟩

/-- `AudioCaptureSession.add_output`: guard on `ACTIVE`/`PAUSED` (else
`InvalidStateError`), then `output.configure(self._session_format)` (the
session format is never `None`: `CaptureConfiguration.__post_init__`
defaults it) followed by `self._multiplexer.add_output(output)`.  The
returned list records the sink-visible actions in order. -/
def addOutputOp (s : SessionState) : OpOutcome × List SinkAction :=
  if s = .active ∨ s = .paused then
    (⟨s, none⟩, [.configure, .register])
  else
    (⟨s, some .invalidState⟩, [])

/-- `AudioCaptureSession.remove_output`: the source performs no state
check at all — it always removes the output from the multiplexer and the
session list and calls `output.finish()`. -/
def removeOutputOp (s : SessionState) : OpOutcome :=
  ⟨s, none⟩

/-- A capture session as needed for `stop`'s drain behaviour: its state,
the session's `_outputs` (in attach order), the multiplexer's `_outputs`,
and whether the recorder exists and is recording (true whenever a start
succeeded, i.e. in `ACTIVE`/`PAUSED`). -/
structure CaptureSession where
  state : SessionState
  outputs : List Nat
  muxOutputs : List Nat
  recorderOn : Bool
deriving DecidableEq, Repr

/-- `AudioCaptureSession.stop`, recording each `output.finish()` invocation
in order.  After the guard, `self._recorder.stop_streaming()` runs; since
the recorder is recording it calls `_notify_delegates_finished`, and the
multiplexer delegate's `audio_streamer_did_finish` calls `finish()` on
every multiplexer output.  Then the session itself calls `finish()` on
every output in `self._outputs`, clears both lists, and moves to
`STOPPED`.  (`finish` exceptions are swallowed at both call sites, so an
invocation is recorded regardless.) -/
def stopSession (s : CaptureSession) :
    Except SessionErr (CaptureSession × List Nat) :=
  if s.state = .active ∨ s.state = .paused then
    let muxFinishes := if s.recorderOn then s.muxOutputs else []
    let sessionFinishes := s.outputs
    .ok ({ s with state := .stopped, outputs := [], muxOutputs := [] },
         muxFinishes ++ sessionFinishes)
  else
    .error .invalidState

end AudioCapture

namespace AudioCapture

/-! ### C2: stop() and the number of finish() calls per sink -/

/-- C2 counterexample: an `ACTIVE` session with a single attached sink
(present, as `add_output` leaves it, in both the session's and the
multiplexer's output lists, with the recorder running).  `stop()` succeeds
and ends in `STOPPED`, but the sink's `finish()` is invoked twice — once
when `stop_streaming` notifies the multiplexer delegate that the stream
finished, and once directly by `stop`'s own loop — not exactly once. -/
theorem c2_stop_double_finish_counterexample :
    stopSession ⟨.active, [5], [5], true⟩ =
      .ok (⟨.stopped, [], [], true⟩, [5, 5]) ∧
    ([5, 5].count 5 = 2 ∧ ¬ [5, 5].count 5 = 1) := by
  refine ⟨rfl, by decide, by decide⟩

/-- C2 (amended): for every session in `ACTIVE` or `PAUSED` whose sinks
were attached through `add_output` (so the session list and the
multiplexer list coincide and the recorder is on), `stop()` succeeds, the
session ends in `STOPPED` with its sink lists cleared, and `finish()` is
invoked exactly **twice** on each attached sink (once via the recorder's
finished notification through the multiplexer, once directly). -/
theorem c2_stop_drains_sinks_amended (st : SessionState) (sinks : List Nat)
    (hst : st = .active ∨ st = .paused) (hnd : sinks.Nodup) :
    ∃ evs, stopSession ⟨st, sinks, sinks, true⟩ =
        .ok (⟨.stopped, [], [], true⟩, evs) ∧
      ∀ o ∈ sinks, evs.count o = 2 := by
  refine ⟨sinks ++ sinks, ?_, ?_⟩
  · unfold stopSession
    rw [if_pos hst]
    simp
  · intro o ho
    rw [List.count_append]
    have h1 : sinks.count o = 1 := List.count_eq_one_of_mem hnd ho
    omega

/-- C2 amended witness: two sinks A = 1, B = 2, stop from `ACTIVE`. -/
theorem c2_stop_drains_sinks_amended_witness :
    ∃ evs, stopSession ⟨.active, [1, 2], [1, 2], true⟩ =
        .ok (⟨.stopped, [], [], true⟩, evs) ∧
      ∀ o ∈ [1, 2], evs.count o = 2 := by
  exact c2_stop_drains_sinks_amended .active [1, 2] (Or.inl rfl) (by decide)

/-! ### C3: the session state machine guards -/

/-- C3 counterexample: `remove_output` called on an `IDLE` session does not
raise `InvalidState` (it has no state guard), contradicting the claim that
every lifecycle operation outside the enumerated transitions raises
`InvalidState`. -/
theorem c3_remove_output_unguarded_counterexample :
    (removeOutputOp .idle).err = none ∧
    ¬ (removeOutputOp .idle).err = some .invalidState := by
  exact ⟨rfl, by decide⟩

/-- C3 (amended): the lifecycle guards are exactly as enumerated — `start`
only from `IDLE`/`STOPPED` (reaching `ACTIVE`, or `ERROR` when the producer
fails), `pause` only `ACTIVE → PAUSED`, `resume` only `PAUSED → ACTIVE`,
`stop` only from `ACTIVE`/`PAUSED` to `STOPPED`, `add_output` only in
`ACTIVE`/`PAUSED` where it first configures the sink with the session
format and then registers it with the multiplexer; every such refused call
raises `InvalidState` and leaves the state unchanged — **except**
`remove_output`, which performs no state check and succeeds (leaving the
state unchanged) in every state. -/
theorem c3_state_machine_amended (s : SessionState) (ok : Bool) :
    (((startOp ok s).err ≠ some .invalidState) ↔ (s = .idle ∨ s = .stopped)) ∧
    ((startOp ok s).err = some .invalidState → (startOp ok s).finalState = s) ∧
    ((s = .idle ∨ s = .stopped) →
      (startOp ok s).finalState = (if ok then .active else .error)) ∧
    (((pauseOp s).err = none) ↔ s = .active) ∧
    ((pauseOp s).err ≠ none → pauseOp s = ⟨s, some .invalidState⟩) ∧
    (s = .active → pauseOp s = ⟨.paused, none⟩) ∧
    (((resumeOp s).err = none) ↔ s = .paused) ∧
    ((resumeOp s).err ≠ none → resumeOp s = ⟨s, some .invalidState⟩) ∧
    (s = .paused → resumeOp s = ⟨.active, none⟩) ∧
    (((stopOp s).err = none) ↔ (s = .active ∨ s = .paused)) ∧
    ((stopOp s).err ≠ none → stopOp s = ⟨s, some .invalidState⟩) ∧
    ((s = .active ∨ s = .paused) → stopOp s = ⟨.stopped, none⟩) ∧
    (((addOutputOp s).1.err = none) ↔ (s = .active ∨ s = .paused)) ∧
    ((addOutputOp s).1.err = none →
      (addOutputOp s).2 = [.configure, .register] ∧
      (addOutputOp s).1.finalState = s) ∧
    ((addOutputOp s).1.err ≠ none →
      (addOutputOp s).1 = ⟨s, some .invalidState⟩ ∧ (addOutputOp s).2 = []) ∧
    ((removeOutputOp s).err = none ∧ (removeOutputOp s).finalState = s) := by
  cases s <;> cases ok <;> decide

/-- C3 amended witness at `s = IDLE`, `producerOk = true`: a refused
`pause` raises `InvalidState` and leaves the state `IDLE`, while
`remove_output` succeeds without a guard. -/
theorem c3_state_machine_amended_witness :
    pauseOp .idle = ⟨.idle, some .invalidState⟩ ∧
    (removeOutputOp .idle).err = none := by
  have h := c3_state_machine_amended .idle true
  exact ⟨h.2.2.2.2.1 (by decide), h.2.2.2.2.2.2.2.2.2.2.2.2.2.2.2.1⟩

end AudioCapture

namespace AudioCapture

/-! ## WavFileWriter / FileOutput (windows/API/WavFileWriter.py, AudioOutput.py)

`WavFileWriter._write_sync` runs the whole conversion-and-write body inside
`try/except`: any exception (I/O errors from `writeframes` included) is
printed and swallowed, after which the method returns normally with no
state mutated — `_is_writing` stays `True` and the statistics are
untouched.  `FileOutput.process` raises only `OutputNotConfiguredError`
(when unconfigured); there is no failed flag anywhere on the write path.
The environment's I/O outcome is an explicit `ioOk` parameter; `data`
stands for the buffer's frame content after `_convert_audio_format`
(whose numeric conversion is irrelevant to this claim). -/

structure WavWriter where
  is_writing : Bool
  frames : List Int
  buffers_written : Nat
  samples_written : Nat
deriving DecidableEq, Repr

/-- `WavFileWriter._write_sync` (as reached through `write`, which returns
early when `_is_writing` is false).  When the body raises (`ioOk = false`)
the exception is caught and logged: no field changes.  On success the
frames are appended and the statistics updated. -/
def writeSync (ioOk : Bool) (data : List Int) (w : WavWriter) : WavWriter :=
  if w.is_writing = false then w
  else if ioOk then
    { w with frames := w.frames ++ data,
             buffers_written := w.buffers_written + 1,
             samples_written := w.samples_written + data.length }
  else w

inductive OutputErr
  | outputNotConfigured
  | outputProcessingFailed
deriving DecidableEq, Repr

structure FileOutput where
  is_configured : Bool
  writer : Option WavWriter
deriving DecidableEq, Repr

/-- `FileOutput.process`: raises `OutputNotConfiguredError` when the sink
is not configured, otherwise delegates to the writer's `write`. -/
def FileOutput.process (ioOk : Bool) (data : List Int) (fo : FileOutput) :
    Except OutputErr FileOutput :=
  match fo.is_configured, fo.writer with
  | true, some w => .ok { fo with writer := some (writeSync ioOk data w) }
  | _, _ => .error .outputNotConfigured

/-- A freshly configured `FileOutput`: `configure` creates the writer and
`start_writing` opens the file (`_is_writing = True`, zero statistics). -/
def configuredFileOutput : FileOutput :=
  { is_configured := true, writer := some ⟨true, [], 0, 0⟩ }

end AudioCapture

namespace AudioCapture

/-! ### C9: I/O errors during process -/

/-- C9 counterexample: on a configured WAV sink an I/O failure during
`process` leaves the sink unchanged — still writing, with no failed flag —
and the very next `process` call returns normally (not
`OutputProcessingFailed`) and writes its frames to the file. -/
theorem c9_io_error_not_permanent_counterexample :
    FileOutput.process false [1, 2] configuredFileOutput =
      .ok configuredFileOutput ∧
    FileOutput.process true [3, 4] configuredFileOutput =
      .ok ⟨true, some ⟨true, [3, 4], 1, 2⟩⟩ := by
  exact ⟨rfl, rfl⟩

/-- C9 (amended): any exception inside `_write_sync` (I/O errors included)
is caught and swallowed: the writer state is unchanged — the sink never
enters a failed state — `process` never returns `OutputProcessingFailed`
on a configured sink, and a subsequent successful `process` continues to
append frames. -/
theorem c9_write_errors_swallowed_amended (wr : WavWriter)
    (data d2 : List Int) :
    (FileOutput.process false data ⟨true, some wr⟩ =
        .ok ⟨true, some wr⟩) ∧
    (∀ ioOk, FileOutput.process ioOk data ⟨true, some wr⟩ ≠
        .error .outputProcessingFailed) ∧
    (wr.is_writing = true →
      FileOutput.process true d2 ⟨true, some wr⟩ =
        .ok ⟨true, some { wr with
                          frames := wr.frames ++ d2,
                          buffers_written := wr.buffers_written + 1,
                          samples_written :=
                            wr.samples_written + d2.length }⟩) := by
  refine ⟨?_, ?_, ?_⟩
  · show Except.ok _ = _
    have hw : writeSync false data wr = wr := by
      unfold writeSync
      split
      · rfl
      · rfl
    rw [hw]
  · intro ioOk
    show Except.ok _ ≠ _
    intro h
    exact Except.noConfusion h
  · intro hwrite
    show Except.ok _ = _
    unfold writeSync
    rw [hwrite]
    rfl

/-- C9 amended witness: one failed then one successful write on the fresh
configured sink. -/
theorem c9_write_errors_swallowed_amended_witness :
    FileOutput.process false [9] ⟨true, some ⟨true, [], 0, 0⟩⟩ =
      .ok ⟨true, some ⟨true, [], 0, 0⟩⟩ ∧
    FileOutput.process true [2] ⟨true, some ⟨true, [], 0, 0⟩⟩ =
      .ok ⟨true, some ⟨true, [2], 1, 1⟩⟩ := by
  have h := c9_write_errors_swallowed_amended ⟨true, [], 0, 0⟩ [9] [2]
  exact ⟨h.1, by simpa using h.2.2 rfl⟩

end AudioCapture

namespace AudioCapture

/-! ## NetworkOutput (windows/API/NetworkOutput.py)

Byte-level model of the broadcast protocol.  Bytes are `Nat` values below
256; `struct.pack`'s little-endian fields become `bytesLE`/`encU`.
Integer samples are serialized exactly (`<i2`/`<i4` two's complement);
the float32 path (`astype('<f4')`) reinterprets IEEE 754 bit patterns,
which this integer model does not represent, so `extractAudioData`
returns `none` for float formats and the theorems below are about the
integer PCM formats.  -/

/-- `w` little-endian bytes of `v` (the truncation to `w` bytes is what
`struct.pack` does after Python's masking). -/
def bytesLE : Nat → Nat → List Nat
  | 0, _ => []
  | w + 1, v => v % 256 :: bytesLE w (v / 256)

lemma length_bytesLE (w v : Nat) : (bytesLE w v).length = w := by
  induction w generalizing v with
  | zero => rfl
  | succ n ih => simp [bytesLE, ih]

/-- Little-endian `w`-byte two's-complement encoding of a signed value. -/
def encU (w : Nat) (v : ℤ) : List Nat :=
  bytesLE w ((v % (2 ^ (8 * w) : ℕ)).toNat)

lemma length_encU (w : Nat) (v : ℤ) : (encU w v).length = w :=
  length_bytesLE _ _

/-- Python `int()` on a float/rational: truncation toward zero. -/
def pyInt (q : ℚ) : ℤ :=
  if 0 ≤ q then q.floor else -((-q).floor)

/-- `NetworkAudioServer._create_format_header`:
`b'AUDIO'` (65,85,68,73,79), version 1, packet type 0x02, `<I` sample
rate from `int(format.sample_rate)`, `<H` channels, `<H` bit depth, `<I`
flags (bit 0 `is_float`, bit 1 `is_interleaved`). -/
def createFormatHeader (f : AudioFormat) : List Nat :=
  [65, 85, 68, 73, 79] ++ [1] ++ [2] ++
  encU 4 (pyInt f.sample_rate) ++
  bytesLE 2 f.channel_count ++
  bytesLE 2 f.bit_depth ++
  bytesLE 4 ((if f.is_float then 1 else 0) + (if f.is_interleaved then 2 else 0))

/-- NumPy array shapes that occur in the pipeline: 1-D, or 2-D as a list
of rows. -/
inductive NDArray
  | oneD (xs : List ℤ)
  | twoD (rows : List (List ℤ))
deriving DecidableEq, Repr

/-- An `AudioBuffer` as the network code sees it. -/
structure NetBuffer where
  data : NDArray
  format : AudioFormat
deriving DecidableEq, Repr

/-- `AudioBuffer.frame_count`: `shape[0]` for interleaved formats,
`shape[1]` (2-D) or `len(data)` (1-D) for non-interleaved ones. -/
def NetBuffer.frame_count (b : NetBuffer) : Nat :=
  match b.format.is_interleaved, b.data with
  | true, .oneD xs => xs.length
  | true, .twoD rows => rows.length
  | false, .oneD xs => xs.length
  | false, .twoD rows => (rows.headD []).length

/-- `NetworkAudioServer._extract_audio_data`: integer formats serialize
with `<i2` for 16-bit and `<i4` otherwise, row-major (`tobytes`) for
interleaved/1-D data and via `to_interleaved` (transpose, then row-major)
for non-interleaved 2-D data.  Float formats (IEEE bit patterns) are not
modelled. -/
def extractAudioData (b : NetBuffer) : Option (List Nat) :=
  if b.format.is_float then none
  else
    let width := if b.format.bit_depth = 16 then 2 else 4
    let flat : List ℤ :=
      match b.data with
      | .oneD xs => xs
      | .twoD rows =>
          if b.format.is_interleaved then rows.flatten
          else rows.transpose.flatten
    some ((flat.map (encU width)).flatten)

/-- `NetworkAudioServer._create_audio_packet`: type byte 0x01, `<Q`
timestamp in microseconds since server start, `<I` frame count, payload. -/
def createAudioPacket (ts_us : Nat) (b : NetBuffer) : Option (List Nat) :=
  (extractAudioData b).map fun payload =>
    [1] ++ bytesLE 8 ts_us ++ bytesLE 4 b.frame_count ++ payload

/-- `NetworkAudioServer._create_end_packet`: type byte 0xFF and a `<Q`
timestamp. -/
def createEndPacket (ts_us : Nat) : List Nat :=
  [255] ++ bytesLE 8 ts_us

/-- Little-endian byte-list decoding. -/
def decodeLE (bytes : List Nat) : Nat :=
  bytes.foldr (fun b acc => b + 256 * acc) 0

/-- Decode a `w`-byte little-endian two's-complement sample. -/
def decodeSampleLE (w : Nat) (bytes : List Nat) : ℤ :=
  let u := decodeLE bytes
  if u < 2 ^ (8 * w - 1) then (u : ℤ) else (u : ℤ) - (2 ^ (8 * w) : ℕ)

/-- Fuel-driven splitting loop for `decodeSamples` (structural recursion
so that the kernel can evaluate it; `xs.length` fuel always suffices for a
positive width). -/
def decodeSamplesGo : Nat → Nat → List Nat → List ℤ
  | 0, _, _ => []
  | _ + 1, _, [] => []
  | fuel + 1, w, xs => decodeSampleLE w (xs.take w) :: decodeSamplesGo fuel w (xs.drop w)

/-- `np.frombuffer`: split the byte string into `w`-byte samples. -/
def decodeSamples (w : Nat) (xs : List Nat) : List ℤ :=
  decodeSamplesGo xs.length w xs

inductive ClientErr
  | protocolViolation
  | attributeMissing
deriving DecidableEq, Repr

/-- The state of a `NetworkAudioClient` after `connect`: the decoded
format, and `start_time = none` because no statement in the class ever
assigns `self._start_time` (neither `__init__` nor `connect`). -/
structure ClientState where
  format : AudioFormat
  start_time : Option ℚ
deriving DecidableEq, Repr

/-- `NetworkAudioClient._read_format_header`: check magic/version/type,
then `struct.unpack('<IHHI', ...)` — sample rate, channels, bit depth,
flags; the format is rebuilt through the `AudioFormat` constructor (so
`__post_init__` applies).  Note the source requests `read(14)` for the
12-byte `<IHHI` structure; when more than 12 bytes are buffered the
unpack raises `struct.error` (14-byte buffer), so parsing only succeeds
when exactly the 12 remaining header bytes are available — which is the
usual schedule, the header being sent on its own right after `connect`.
Returns the parsed format and the unconsumed stream. -/
def readFormatHeader (stream : List Nat) :
    Except ClientErr (AudioFormat × List Nat) :=
  if stream.take 5 ≠ [65, 85, 68, 73, 79] then .error .protocolViolation
  else if (stream.drop 5).take 1 ≠ [1] then .error .protocolViolation
  else if (stream.drop 6).take 1 ≠ [2] then .error .protocolViolation
  else
    let fd := (stream.drop 7).take 14
    if fd.length ≠ 12 then .error .protocolViolation
    else
      let sr := decodeLE (fd.take 4)
      let ch := decodeLE ((fd.drop 4).take 2)
      let bd := decodeLE ((fd.drop 6).take 2)
      let flags := decodeLE (fd.drop 8)
      .ok (mkAudioFormat (sr : ℚ) ch bd (flags / 2 % 2 = 1) (flags % 2 = 1),
           stream.drop 19)

/-- `NetworkAudioClient.connect`: read the header and remember the format;
`_start_time` is still unset. -/
def connectClient (stream : List Nat) :
    Except ClientErr (ClientState × List Nat) :=
  (readFormatHeader stream).map fun (f, rest) =>
    ({ format := f, start_time := none }, rest)

/-- `NetworkAudioClient._read_audio_packet` (after the 0x01 type byte has
been consumed): read the `<QI` header, compute
`frame_count * channels * (bit_depth // 8)` bytes of payload, decode the
samples with `np.frombuffer`, then build the buffer timestamp from
`self._start_time` — an attribute that was never assigned, so Python
raises `AttributeError` at that point (`ClientErr.attributeMissing`).
Truncated reads return `none` like the source. -/
def readAudioPacket (st : ClientState) (stream : List Nat) :
    Except ClientErr (Option (List ℤ) × List Nat) :=
  if stream.length < 12 then .ok (none, stream.drop 12)
  else
    let frame_count := decodeLE ((stream.take 12).drop 8)
    let data_size :=
      frame_count * st.format.channel_count * (st.format.bit_depth / 8)
    let rest := stream.drop 12
    if rest.length < data_size then .ok (none, rest.drop data_size)
    else
      let width :=
        if st.format.is_float then (if st.format.bit_depth = 32 then 4 else 8)
        else if st.format.bit_depth = 16 then 2 else 4
      let samples := decodeSamples width (rest.take data_size)
      match st.start_time with
      | none => .error .attributeMissing
      | some _ => .ok (some samples, rest.drop data_size)

end AudioCapture

namespace AudioCapture

/-- The format of scenario S4: 48000 Hz, stereo, 16-bit integer PCM,
interleaved. -/
def pcm16Stereo : AudioFormat := mkAudioFormat 48000 2 16 true false

/-! ### C4: broadcast round trip on the client -/

/-- C4: the format half of the round trip works — a client connecting on a
stream carrying exactly the 19-byte header decodes `pcm16Stereo` back —
but its `_start_time` attribute is never assigned, so decoding the very
first audio packet (here a server-produced packet for a 2-frame stereo
buffer) raises `AttributeError` when the buffer timestamp is built: no
audio packet is ever decoded into a buffer. -/
theorem c4_client_start_time_uninitialized :
    connectClient (createFormatHeader pcm16Stereo) =
      .ok ({ format := pcm16Stereo, start_time := none }, []) ∧
    readAudioPacket { format := pcm16Stereo, start_time := none }
        (((createAudioPacket 0
            ⟨.twoD [[1, -2], [3, 4]], pcm16Stereo⟩).getD []).drop 1) =
      .error .attributeMissing := by
  constructor
  · rfl
  · rfl

/-! ### C7: broadcast wire format -/

/-- C7 counterexample: for 24-bit integer PCM the server serializes each
sample with `<i4` (4 bytes), so a mono buffer with a single sample yields
a 4-byte payload, not the `frame_count × channels × (bit_depth/8) = 3`
bytes the claim states for every configured format. -/
theorem c7_wire_format_counterexample :
    extractAudioData ⟨.oneD [0], mkAudioFormat 48000 1 24 true false⟩ =
      some [0, 0, 0, 0] ∧
    ¬ ((extractAudioData
          ⟨.oneD [0], mkAudioFormat 48000 1 24 true false⟩).getD []).length =
        1 * 1 * (24 / 8) := by
  constructor
  · rfl
  · decide

lemma flatten_map_encU_length (w : Nat) (xs : List ℤ) :
    ((xs.map (encU w)).flatten).length = xs.length * w := by
  induction xs with
  | nil => simp
  | cons x xs ih => simp [ih, length_encU, Nat.succ_mul, Nat.add_comm]

lemma flatten_rect_length (cc : Nat) (rows : List (List ℤ))
    (h : ∀ r ∈ rows, r.length = cc) :
    rows.flatten.length = rows.length * cc := by
  induction rows with
  | nil => simp
  | cons r rows ih =>
      have hr : r.length = cc := h r (by simp)
      have hrest : ∀ x ∈ rows, x.length = cc := fun x hx => h x (by simp [hx])
      simp [hr, ih hrest, Nat.succ_mul, Nat.add_comm]

/-- C7 (amended): the format header is byte-exact as claimed (19 bytes;
for 48000/2/16-bit PCM it is `AUDIO | 1 | 0x02 | 80 BB 00 00 | 02 00 |
10 00 | 02 00 00 00`), and for integer PCM formats whose wire sample
width equals `bit_depth/8` (16- or 32-bit) and buffers shaped
`(frames, channels)`, the audio packet is exactly
`0x01 | u64 timestamp | u32 frame_count | payload` with the payload the
little-endian interleaved samples, of exactly
`frame_count × channels × (bit_depth/8)` bytes; in particular a
1024-frame stereo 16-bit buffer gives frame count 1024 and a 4096-byte
payload (witness).  (For 24-bit formats the wire width is 4, not 3 —
the counterexample — and the float path serializes 4-byte IEEE samples
regardless of `bit_depth`.) -/
theorem c7_wire_format_amended (ts : Nat) (f : AudioFormat)
    (rows : List (List ℤ))
    (hfl : f.is_float = false)
    (hbd : f.bit_depth = 16 ∨ f.bit_depth = 32)
    (hil : f.is_interleaved = true)
    (hrect : ∀ r ∈ rows, r.length = f.channel_count) :
    createFormatHeader pcm16Stereo =
      [65, 85, 68, 73, 79, 1, 2, 128, 187, 0, 0, 2, 0, 16, 0, 2, 0, 0, 0] ∧
    (createFormatHeader f).length = 19 ∧
    createAudioPacket ts ⟨.twoD rows, f⟩ =
      some ([1] ++ bytesLE 8 ts ++ bytesLE 4 rows.length ++
        ((rows.flatten.map (encU (f.bit_depth / 8))).flatten)) ∧
    ((rows.flatten.map (encU (f.bit_depth / 8))).flatten).length =
      rows.length * f.channel_count * (f.bit_depth / 8) := by
  have hwidth : (if f.bit_depth = 16 then 2 else 4) = f.bit_depth / 8 := by
    rcases hbd with h | h <;> simp [h]
  refine ⟨rfl, ?_, ?_, ?_⟩
  · simp [createFormatHeader, length_encU, length_bytesLE]
  · unfold createAudioPacket extractAudioData NetBuffer.frame_count
    rw [hfl, hwidth]
    simp [hil]
  · rw [flatten_map_encU_length, flatten_rect_length f.channel_count rows hrect]

/-- C7 amended witness: scenario S4 — one 1024-frame stereo 16-bit
buffer; the frame-count field encodes 1024 and the payload is 4096
bytes. -/
theorem c7_wire_format_amended_witness :
    createAudioPacket 0 ⟨.twoD (List.replicate 1024 [100, -100]), pcm16Stereo⟩ =
      some ([1] ++ bytesLE 8 0 ++ bytesLE 4 1024 ++
        (((List.replicate 1024 [(100 : ℤ), -100]).flatten.map
            (encU (pcm16Stereo.bit_depth / 8))).flatten)) ∧
    (((List.replicate 1024 [(100 : ℤ), -100]).flatten.map
        (encU (pcm16Stereo.bit_depth / 8))).flatten).length = 4096 := by
  have h := c7_wire_format_amended 0 pcm16Stereo
    (List.replicate 1024 [100, -100]) rfl (Or.inl rfl) rfl
    (by
      intro r hr
      rw [List.eq_of_mem_replicate hr]
      rfl)
  refine ⟨?_, ?_⟩
  · have h3 := h.2.2.1
    rw [List.length_replicate] at h3
    exact h3
  · have h4 := h.2.2.2
    rw [List.length_replicate] at h4
    exact h4.trans (by decide)

end AudioCapture

namespace AudioCapture

/-! ## mix_audio_buffers (Examples/interactive_recording_mixer.py)

The collectors produce 48 kHz stereo non-interleaved float32 buffers of
shape `(frames, 2)`; a buffer is modelled as a list of stereo frames
`ℚ × ℚ` (the mixer's arithmetic `a*0.5 + b*0.5` modelled exactly over the
rationals).  `input_offset` starts at 0 and is incremented once per output
frame, across buffer boundaries; input samples past the end of the
concatenated input read as `0.0`. -/

/-- The inner per-frame loop of `mix_audio_buffers`: for each output frame
take `output_sample * 0.5 + input_sample * 0.5` per channel, where the
input sample comes from the concatenated input at `input_offset` (or 0
past end-of-input), then advance `input_offset`. -/
def mixOne (combined : List (ℚ × ℚ)) : Nat → List (ℚ × ℚ) → List (ℚ × ℚ)
  | _, [] => []
  | off, o :: rest =>
      (o.1 * (1 / 2) + (combined.getD off (0, 0)).1 * (1 / 2),
       o.2 * (1 / 2) + (combined.getD off (0, 0)).2 * (1 / 2)) ::
        mixOne combined (off + 1) rest

/-- The outer loop over output-collector buffers; `input_offset` carries
over from one buffer to the next. -/
def mixGo (combined : List (ℚ × ℚ)) : Nat → List (List (ℚ × ℚ)) → List (List (ℚ × ℚ))
  | _, [] => []
  | off, b :: rest => mixOne combined off b :: mixGo combined (off + b.length) rest

/-- `InteractiveRecordingMixer.mix_audio_buffers`: empty when both
collectors are empty; one source's `np.vstack` (concatenation) when only
that source produced buffers; otherwise mix each output-collector buffer
against the concatenated input and `np.vstack` the mixed buffers. -/
def mix_audio_buffers (inputBuffers outputBuffers : List (List (ℚ × ℚ))) :
    List (ℚ × ℚ) :=
  if inputBuffers = [] ∧ outputBuffers = [] then []
  else if outputBuffers = [] then inputBuffers.flatten
  else if inputBuffers = [] then outputBuffers.flatten
  else (mixGo inputBuffers.flatten 0 outputBuffers).flatten

/-- The claim's per-sample formula (`mixed[i, ch] = 0.5 × output[i, ch] +
0.5 × input[offset + i, ch]`), stated over a whole stereo frame. -/
def mixFrame (o i : ℚ × ℚ) : ℚ × ℚ :=
  (o.1 * (1 / 2) + i.1 * (1 / 2), o.2 * (1 / 2) + i.2 * (1 / 2))

lemma mixOne_length (c : List (ℚ × ℚ)) :
    ∀ (b : List (ℚ × ℚ)) (off : Nat), (mixOne c off b).length = b.length := by
  intro b
  induction b with
  | nil => intro off; rfl
  | cons o rest ih => intro off; simp [mixOne, ih]

lemma mixOne_getD (c : List (ℚ × ℚ)) :
    ∀ (b : List (ℚ × ℚ)) (off i : Nat), i < b.length →
      (mixOne c off b).getD i (0, 0) =
        mixFrame (b.getD i (0, 0)) (c.getD (off + i) (0, 0)) := by
  intro b
  induction b with
  | nil => intro off i hi; simp at hi
  | cons o rest ih =>
      intro off i hi
      cases i with
      | zero => simp [mixOne, mixFrame]
      | succ j =>
          have hj : j < rest.length := by simpa using hi
          have := ih (off + 1) j hj
          simpa [mixOne, Nat.add_assoc, Nat.add_comm, Nat.add_left_comm] using this

lemma mixGo_length (c : List (ℚ × ℚ)) :
    ∀ (bs : List (List (ℚ × ℚ))) (off : Nat),
      (mixGo c off bs).length = bs.length := by
  intro bs
  induction bs with
  | nil => intro off; rfl
  | cons b rest ih => intro off; simp [mixGo, ih]

lemma mixGo_getD (c : List (ℚ × ℚ)) :
    ∀ (bs : List (List (ℚ × ℚ))) (off k : Nat), k < bs.length →
      (mixGo c off bs).getD k [] =
        mixOne c (off + ((bs.take k).map List.length).sum) (bs.getD k []) := by
  intro bs
  induction bs with
  | nil => intro off k hk; simp at hk
  | cons b rest ih =>
      intro off k hk
      cases k with
      | zero => simp [mixGo]
      | succ j =>
          have hj : j < rest.length := by simpa using hk
          have := ih (off + b.length) j hj
          simpa [mixGo, Nat.add_assoc, Nat.add_comm, Nat.add_left_comm] using this

end AudioCapture

namespace AudioCapture

/-! ### C8: the two-source mixer -/

/-- C8: when both collectors produced buffers, `mix_audio_buffers` yields,
for each output-collector buffer, a same-length mixed buffer whose frame
`i` is `0.5 × output[i] + 0.5 × input[offset + i]` per channel, where the
offset is the number of output frames already consumed by earlier buffers
(advancing by one per frame) and input frames past the end of the
concatenated input read as 0; the per-buffer results are concatenated.
When exactly one source produced buffers, the result is that source's
concatenation, unmixed. -/
theorem c8_mixer (inB outB : List (List (ℚ × ℚ)))
    (hIn : inB ≠ []) (hOut : outB ≠ []) :
    (mix_audio_buffers inB outB = (mixGo inB.flatten 0 outB).flatten ∧
     (mixGo inB.flatten 0 outB).length = outB.length ∧
     ∀ k, k < outB.length →
       ((mixGo inB.flatten 0 outB).getD k []).length =
         (outB.getD k []).length ∧
       ∀ i, i < (outB.getD k []).length →
         ((mixGo inB.flatten 0 outB).getD k []).getD i (0, 0) =
           mixFrame ((outB.getD k []).getD i (0, 0))
             (inB.flatten.getD
               (((outB.take k).map List.length).sum + i) (0, 0))) ∧
    (∀ b bs, mix_audio_buffers (b :: bs) [] = (b :: bs).flatten) ∧
    (∀ b bs, mix_audio_buffers [] (b :: bs) = (b :: bs).flatten) := by
  refine ⟨⟨?_, ?_, ?_⟩, ?_, ?_⟩
  · unfold mix_audio_buffers
    rw [if_neg (by simp [hIn]), if_neg hOut, if_neg hIn]
  · exact mixGo_length _ _ _
  · intro k hk
    rw [mixGo_getD _ _ _ _ hk]
    constructor
    · exact mixOne_length _ _ _
    · intro i hi
      rw [mixOne_getD _ _ _ _ hi]
      simp
  · intro b bs
    unfold mix_audio_buffers
    rw [if_neg (by simp), if_pos rfl]
  · intro b bs
    unfold mix_audio_buffers
    rw [if_neg (by simp), if_neg (by simp), if_pos rfl]

/-- C8 witness (scenario S6): the input collector holds constant frames of
0.5, the output collector constant frames of −0.3 (two buffers, so the
offset crosses a buffer boundary); every mixed sample is
`0.5 × (−0.3) + 0.5 × 0.5 = 0.1`. -/
theorem c8_mixer_witness :
    mix_audio_buffers
        [[(1 / 2, 1 / 2), (1 / 2, 1 / 2)]]
        [[(-3 / 10, -3 / 10)], [(-3 / 10, -3 / 10)]] =
      [(1 / 10, 1 / 10), (1 / 10, 1 / 10)] := by
  have h := c8_mixer
    [[(1 / 2, 1 / 2), (1 / 2, 1 / 2)]]
    [[(-3 / 10, -3 / 10)], [(-3 / 10, -3 / 10)]]
    (by decide) (by decide)
  rw [h.1.1]
  norm_num [mixGo, mixOne, List.getD]

end AudioCapture
